import Mathlib

/-!
Shallow embedding of `src/build_graph.py` (class `MedicalGraph`): an ETL
pipeline that loads line-delimited JSON files and issues bulk node/relationship
creation statements and schema statements against a graph store.

External collaborators (the `json` library's `json.loads`, the `py2neo` store
connection `self.g.run`, the filesystem) are modelled as parameters/oracles:
`jsonLoads : String → Option JValue` stands for `json.loads` restricted to the
success/failure outcome and the parsed value, and `runOk : Stmt → Bool` stands
for whether a given store statement raises when submitted via `self.g.run`.
Statements submitted to the store and lines printed to the console are recorded
as an explicit effect trace.
-/

namespace BuildGraph

/-- Scalar Python/JSON values as they occur in this pipeline's records
(`None`/null, booleans, integers, strings). -/
inductive PyVal where
  | none
  | bool (b : Bool)
  | int (n : Int)
  | str (s : String)
deriving DecidableEq, Repr

/-- Python truthiness (`if v:`) for scalar values. -/
def PyVal.truthy : PyVal → Bool
  | .none => false
  | .bool b => b
  | .int n => n != 0
  | .str s => s != ""

/-- Python `str(v)` for scalar values (used by the `str(edge[k])` casts at
build_graph.py lines 105-106 and the f-string embedding of `rel_type`). -/
def PyVal.toStr : PyVal → String
  | .none => "None"
  | .bool b => if b then "True" else "False"
  | .int n => toString n
  | .str s => s

/-- A Python dict with string keys in insertion order (Python 3.7+ dicts
preserve insertion order). -/
abbrev Record := List (String × PyVal)

/-- `d.get(k)` / `d[k]` with default `None` (lookups in this module are either
guarded by `k in d` or use `.get`, so `None` as the absent default is exact). -/
def Record.getD (r : Record) (k : String) : PyVal :=
  match r.find? (fun kv => kv.1 == k) with
  | some kv => kv.2
  | Option.none => PyVal.none

/-- Python `k in d`. -/
def Record.hasKey (r : Record) (k : String) : Bool :=
  r.any (fun kv => kv.1 == k)

/-- A parsed JSON value as returned by `json.loads` on one input line: a
scalar, an array, or an object. (Arrays/objects of scalars suffice for this
pipeline's data model; no claim depends on deeper nesting.) -/
inductive JValue where
  | prim (v : PyVal)
  | arr (xs : List PyVal)
  | obj (kvs : Record)
deriving DecidableEq, Repr

/-- Python truthiness for a parsed JSON value (`if obj:` at
build_graph.py line 32): empty dict/list, `null`, `false`, `0`, and `""`
are falsy. -/
def JValue.truthy : JValue → Bool
  | .prim v => v.truthy
  | .arr xs => !xs.isEmpty
  | .obj kvs => !kvs.isEmpty

/-- ASCII whitespace as stripped by Python's `str.strip()` (the full Python
definition also strips other unicode whitespace; the claims only involve ASCII
lines). -/
def isPySpace (c : Char) : Bool :=
  c == ' ' || c == '\t' || c == '\n' || c == '\r' || c == '\x0b' || c == '\x0c'

/-- Python `line.strip()` (build_graph.py line 28). -/
def pyStrip (s : String) : String :=
  String.mk (((s.data.dropWhile isPySpace).reverse.dropWhile isPySpace).reverse)

/-- `load_data` (build_graph.py lines 23-36), over the file's lines: strip each
line; skip blank lines; `json.loads` the line, skipping lines that raise
`JSONDecodeError`; append the parsed object only if it is truthy
(`if obj: datas.append(obj)`). -/
def load_data (jsonLoads : String → Option JValue) : List String → List JValue
  | [] => []
  | line :: rest =>
    let l := pyStrip line
    if l == "" then
      load_data jsonLoads rest
    else
      match jsonLoads l with
      | Option.none => load_data jsonLoads rest
      | some obj =>
        if obj.truthy then obj :: load_data jsonLoads rest
        else load_data jsonLoads rest

/-- Statements submitted to the graph store via `self.g.run`, one constructor
per query template in the source:
`CREATE CONSTRAINT IF NOT EXISTS FOR (n:label) REQUIRE n.name IS UNIQUE` (line 42),
`CREATE INDEX IF NOT EXISTS FOR (n:label) ON (n.name)` (line 48),
`UNWIND $batch AS row CREATE (n:label) SET n = row` (lines 75-79), and
`UNWIND $batch AS row MATCH (a:start \x7bname: row.from\x7d)
MATCH (b:end \x7bname: row.to\x7d) CREATE (a)-[rel:relType]->(b) SET ...`
(lines 126-132, with `setAttrs` the attribute names in the SET clause). -/
inductive Stmt where
  | createConstraint (label : String)
  | createIndex (label : String)
  | unwindCreateNodes (label : String) (batch : List Record)
  | unwindCreateRels (startLabel endLabel : String) (relType : String)
      (batch : List Record) (setAttrs : List String)
deriving DecidableEq, Repr

/-- One observable step: a statement submitted to the store (`ok = false` when
the store raised on it), or a line printed to the console. -/
inductive Effect where
  | run (s : Stmt) (ok : Bool)
  | print (msg : String)
deriving DecidableEq, Repr

/-- Python exceptions that escape a function of this module uncaught. The
store's own error text (the `{e}` parts of messages) is abstracted. -/
inductive PyError where
  | nameError (missing : String)
  | attrError
  | storeError
deriving DecidableEq, Repr

/-- `ensure_index_and_constraint` (build_graph.py lines 38-51): try the
uniqueness constraint; on an exception print the fallback message and try a
plain index; on a second exception print the failure message. Every exception
is caught, so the function always returns (hence the plain effect-list type). -/
def ensure_index_and_constraint (runOk : Stmt → Bool) (label : String) : List Effect :=
  let c := Stmt.createConstraint label
  if runOk c then
    [Effect.run c true,
     Effect.print ("✅ Constraint (and index) created for " ++ label ++ ".name")]
  else
    let i := Stmt.createIndex label
    [Effect.run c false,
     Effect.print ("Constraint failed for " ++ label ++ ", falling back to index")] ++
    (if runOk i then
      [Effect.run i true, Effect.print ("✅ Index created for " ++ label ++ ".name")]
    else
      [Effect.run i false, Effect.print ("Index also failed for " ++ label)])

/-- `create_indexes_and_constraints` (build_graph.py lines 54-58). -/
def create_indexes_and_constraints (runOk : Stmt → Bool) : List Effect :=
  Effect.print "🔍 Creating indexes and constraints..." ::
    (ensure_index_and_constraint runOk "company" ++
     ensure_index_and_constraint runOk "product" ++
     ensure_index_and_constraint runOk "industry")

/-- The dict comprehension at build_graph.py line 72:
`\x7bk: v for k, v in node.items() if v is not None and v != ""\x7d`.
In Python, `v != ""` is `False` only when `v` is the empty string (an int or
bool never equals `""`), so exactly `None` and `""` values are dropped. -/
def clean_node (node : Record) : Record :=
  node.filter (fun kv => !(kv.2 == PyVal.none) && !(kv.2 == PyVal.str ""))

/-- `node.items()` for each element of `nodes` (build_graph.py lines 70-73):
the comprehension iterates `node.items()`, which raises `AttributeError` if a
loaded JSON value is not an object; returns `none` in that case. -/
def itemsAll : List JValue → Option (List Record)
  | [] => some []
  | JValue.obj kvs :: rest => (itemsAll rest).map (kvs :: ·)
  | _ :: _ => Option.none

/-- `create_nodes_batch` (build_graph.py lines 61-81): return immediately on an
empty list; clean each record; submit one `UNWIND ... CREATE ... SET n = row`
statement with the cleaned batch; print the count. The `self.g.run` call is not
wrapped in try/except, so a store failure propagates (`storeError`). The
`name_key` parameter is accepted but never used by the source body. -/
def create_nodes_batch (runOk : Stmt → Bool) (label : String) (nodes : List JValue)
    (nameKey : String) : List Effect × Option PyError :=
  if nodes.isEmpty then ([], Option.none)
  else
    match itemsAll nodes with
    | Option.none => ([], some PyError.attrError)
    | some rows =>
      let batchData := rows.map clean_node
      let stmt := Stmt.unwindCreateNodes label batchData
      if runOk stmt then
        ([Effect.run stmt true,
          Effect.print ("Created " ++ toString batchData.length ++
            " nodes of type '" ++ label ++ "'")], Option.none)
      else
        ([Effect.run stmt false], some PyError.storeError)

/-- One row of a relationship batch (build_graph.py lines 104-111):
`\x7b"from": str(edge[from_key]), "to": str(edge[to_key])\x7d`, then for each
`k` of `attr_keys` present in the edge, `item[k] = edge[k]`. A `None` or empty
`attr_keys` is modelled by the empty list (both are falsy, so the Python
`if attr_keys:` guard and the filter over `[]` agree). -/
def buildItem (fromKey toKey : String) (attrKeys : List String) (edge : Record) : Record :=
  [("from", PyVal.str (edge.getD fromKey).toStr), ("to", PyVal.str (edge.getD toKey).toStr)] ++
    (attrKeys.filter (fun k => edge.hasKey k)).map (fun k => (k, edge.getD k))

/-- `rel_groups[rel_type].append(item)` on a `defaultdict(list)` (line 112),
modelled as an association list in first-encounter key order (insertion order
of `dict.items()`). -/
def addToGroup (groups : List (PyVal × List Record)) (key : PyVal) (item : Record) :
    List (PyVal × List Record) :=
  match groups with
  | [] => [(key, [item])]
  | (k, items) :: rest =>
    if k == key then (k, items ++ [item]) :: rest
    else (k, items) :: addToGroup rest key item

/-- The grouping loop of `create_relationships_dynamic`
(build_graph.py lines 99-112), written as it stands in the source: skip an edge
when `edge.get("rel")` is falsy or either endpoint key is absent, otherwise
append its row to the group keyed by the `rel` value. (At runtime this loop is
unreachable for non-empty input because line 99 raises `NameError`; see
`create_relationships_dynamic`.) -/
def relGroupsOf (fromKey toKey : String) (attrKeys : List String) (edges : List Record)
    (groups : List (PyVal × List Record)) : List (PyVal × List Record) :=
  match edges with
  | [] => groups
  | edge :: rest =>
    let relType := edge.getD "rel"
    if !relType.truthy || !edge.hasKey fromKey || !edge.hasKey toKey then
      relGroupsOf fromKey toKey attrKeys rest groups
    else
      relGroupsOf fromKey toKey attrKeys rest
        (addToGroup groups relType (buildItem fromKey toKey attrKeys edge))

/-- The SET-clause attribute names for one group (build_graph.py lines 116-123):
the `attr_keys` that occur in at least one row of the batch; empty when
`attr_keys` is falsy or no row carries any of them (then `set_clause` stays
`""`). Python iterates `existing_attrs` as an unordered set; the embedding
canonicalizes to `attr_keys` order. -/
def groupSetAttrs (attrKeys : List String) (batch : List Record) : List String :=
  attrKeys.filter (fun k => batch.any (fun item => item.hasKey k))

/-- The statement issued for one `(rel_type, batch)` group
(build_graph.py lines 126-134). -/
def groupStmt (startLabel endLabel : String) (attrKeys : List String)
    (g : PyVal × List Record) : Stmt :=
  Stmt.unwindCreateRels startLabel endLabel g.1.toStr g.2 (groupSetAttrs attrKeys g.2)

/-- The per-group execution loop of `create_relationships_dynamic`
(build_graph.py lines 114-138): for each group, build its statement and run it
inside try/except — on success print the created-count line, on failure print
the ❌ line and continue with the next group. Every exception is caught, so the
loop always completes (plain effect-list type). -/
def runRelGroups (runOk : Stmt → Bool) (startLabel endLabel : String)
    (attrKeys : List String) : List (PyVal × List Record) → List Effect
  | [] => []
  | g :: rest =>
    let stmt := groupStmt startLabel endLabel attrKeys g
    (if runOk stmt then
       [Effect.run stmt true,
        Effect.print ("✅ Created " ++ toString g.2.length ++ " relationships of type " ++
          g.1.toStr ++ " from " ++ startLabel ++ " to " ++ endLabel)]
     else
       [Effect.run stmt false,
        Effect.print ("❌ Failed to create relationship " ++ g.1.toStr)]) ++
    runRelGroups runOk startLabel endLabel attrKeys rest

/-- `create_relationships_dynamic` (build_graph.py lines 92-138). After the
empty-input early return (lines 96-97), line 99 evaluates `defaultdict(list)`;
the module's only imports are `os`, `json`, and `py2neo.Graph` (lines 8-10), so
`defaultdict` is an unbound name and the function raises
`NameError: name 'defaultdict' is not defined` before any grouping or store
call. The grouping and per-group execution that the rest of the body spells out
(lines 100-138) is embedded separately as `relGroupsOf` / `runRelGroups`. -/
def create_relationships_dynamic (runOk : Stmt → Bool) (startLabel endLabel : String)
    (edges : List JValue) (fromKey toKey : String) (attrKeys : List String) :
    List Effect × Option PyError :=
  if edges.isEmpty then ([], Option.none)
  else ([], some (PyError.nameError "defaultdict"))

/-- Sequencing of two pipeline steps: the second runs only when the first did
not raise, and the effect traces concatenate. -/
def seqE (a b : List Effect × Option PyError) : List Effect × Option PyError :=
  match a.2 with
  | some e => (a.1, some e)
  | Option.none => (a.1 ++ b.1, b.2)

/-- The lines of each input data file, as read from the fixed data directory
(one JSON object per line; a missing file would raise uncaught, which is out of
the claims' scope). -/
structure Files where
  company : List String
  product : List String
  industry : List String
  company_industry : List String
  company_product : List String
  product_product : List String
  industry_industry : List String

/-- `create_graphnodes` (build_graph.py lines 83-89): load the three node files
and batch-create each label's nodes. -/
def create_graphnodes (runOk : Stmt → Bool) (jsonLoads : String → Option JValue)
    (f : Files) : List Effect × Option PyError :=
  let company := load_data jsonLoads f.company
  let product := load_data jsonLoads f.product
  let industry := load_data jsonLoads f.industry
  seqE (create_nodes_batch runOk "company" company "name")
    (seqE (create_nodes_batch runOk "product" product "name")
      (create_nodes_batch runOk "industry" industry "name"))

/-- `create_graphrels` (build_graph.py lines 140-150): print the two progress
lines, load the four edge files, and run the dynamic writer on each in the
source's order (company→industry, industry→industry, company→product with
`attr_keys=['rel_weight']`, product→product). -/
def create_graphrels (runOk : Stmt → Bool) (jsonLoads : String → Option JValue)
    (f : Files) : List Effect × Option PyError :=
  let ci := load_data jsonLoads f.company_industry
  let cp := load_data jsonLoads f.company_product
  let pp := load_data jsonLoads f.product_product
  let ii := load_data jsonLoads f.industry_industry
  seqE ([Effect.print "🔗 Loading relationship data...",
         Effect.print "⚡ Creating relationships..."], Option.none)
    (seqE (create_relationships_dynamic runOk "company" "industry" ci "company_name" "industry_name" [])
      (seqE (create_relationships_dynamic runOk "industry" "industry" ii "from_industry" "to_industry" [])
        (seqE (create_relationships_dynamic runOk "company" "product" cp "company_name" "product_name" ["rel_weight"])
          (create_relationships_dynamic runOk "product" "product" pp "from_entity" "to_entity" []))))

/-- The `__main__` block (build_graph.py lines 152-156):
`create_graphnodes()`, then `create_indexes_and_constraints()`, then
`create_graphrels()`; an uncaught error in a phase terminates the process
before the later phases. -/
def main_pipeline (runOk : Stmt → Bool) (jsonLoads : String → Option JValue)
    (f : Files) : List Effect × Option PyError :=
  seqE (create_graphnodes runOk jsonLoads f)
    (seqE (create_indexes_and_constraints runOk, Option.none)
      (create_graphrels runOk jsonLoads f))

/-- Modelled from the spec: the store's node-level semantics for the statements
this pipeline issues (the graph database itself is an out-of-scope external
collaborator). The store is the multiset of `(label, properties)` nodes.
`UNWIND $batch AS row CREATE (n:label) SET n = row` creates one fresh node per
row — CREATE, not MERGE, so no match-by-key happens. Constraint, index, and
relationship statements create no nodes. -/
def applyStmt (store : List (String × Record)) : Stmt → List (String × Record)
  | Stmt.unwindCreateNodes label batch => store ++ batch.map (fun row => (label, row))
  | _ => store

/-- Modelled from the spec: a statement the store rejected changes nothing
(statements apply atomically); prints change no store state. -/
def applyEffect (store : List (String × Record)) : Effect → List (String × Record)
  | Effect.run s true => applyStmt store s
  | Effect.run _ false => store
  | Effect.print _ => store

/-- Replay an effect trace against the store-node semantics. -/
def applyEffects (store : List (String × Record)) (effs : List Effect) :
    List (String × Record) :=
  effs.foldl applyEffect store

/-- Is this effect a node-creation statement submission? -/
def Effect.isNodeCreate : Effect → Bool
  | .run (Stmt.unwindCreateNodes _ _) _ => true
  | _ => false

/-- Is this effect a schema (constraint or index) statement submission? -/
def Effect.isSchema : Effect → Bool
  | .run (Stmt.createConstraint _) _ => true
  | .run (Stmt.createIndex _) _ => true
  | _ => false

/-- Is this effect a relationship-creation statement submission? -/
def Effect.isRelCreate : Effect → Bool
  | .run (Stmt.unwindCreateRels _ _ _ _ _) _ => true
  | _ => false

/-- The statement submitted by an effect, if it is a store submission. -/
def Effect.stmtOf : Effect → Option Stmt
  | .run s _ => some s
  | .print _ => Option.none

/-- The edge batch of the spec's scenario:
`[\x7b"company_name":"Acme","industry_name":"Tech","rel":"BELONGS_TO"\x7d,
\x7b"company_name":"Foo","industry_name":"Tech"\x7d]`. -/
def demoEdges : List Record :=
  [[("company_name", PyVal.str "Acme"), ("industry_name", PyVal.str "Tech"),
    ("rel", PyVal.str "BELONGS_TO")],
   [("company_name", PyVal.str "Foo"), ("industry_name", PyVal.str "Tech")]]

/-- A concrete stand-in for `json.loads` covering the inputs used in witnesses:
parses `"null"` and the two-field object line used below, fails on everything
else. -/
def demoJsonLoads : String → Option JValue
  | "null" => some (JValue.prim PyVal.none)
  | "\x7b\x7d" => some (JValue.obj [])
  | "\x7b\"name\": \"Acme\"\x7d" => some (JValue.obj [("name", PyVal.str "Acme")])
  | _ => Option.none

/-- A line that `load_data` would keep: non-blank after stripping, parses, and
the parsed value is truthy. -/
def truthyValidLine (jsonLoads : String → Option JValue) (line : String) : Bool :=
  !(pyStrip line == "") &&
    (match jsonLoads (pyStrip line) with
     | some v => v.truthy
     | Option.none => false)

/-- A syntactically valid non-blank line (the notion quantified over by the
spec's record-count property): non-blank after stripping and `json.loads`
succeeds on it, truthy or not. -/
def validNonBlankLine (jsonLoads : String → Option JValue) (line : String) : Bool :=
  !(pyStrip line == "") && (jsonLoads (pyStrip line)).isSome

/-- The contribution of one input line to `load_data`'s result. -/
def loadLine (jsonLoads : String → Option JValue) (line : String) : Option JValue :=
  if pyStrip line == "" then Option.none
  else
    match jsonLoads (pyStrip line) with
    | some v => if v.truthy then some v else Option.none
    | Option.none => Option.none

/-- A line whose stripped content parses successfully but to a falsy value
(`\x7b\x7d`, `[]`, `null`, `false`, `0`, `""`). -/
def falsyParseLine (jsonLoads : String → Option JValue) (line : String) : Bool :=
  match jsonLoads (pyStrip line) with
  | some v => !v.truthy
  | Option.none => false

lemma load_data_cons (jsonLoads : String → Option JValue) (line : String) (rest : List String) :
    load_data jsonLoads (line :: rest) =
      (if pyStrip line == "" then load_data jsonLoads rest
       else
         match jsonLoads (pyStrip line) with
         | Option.none => load_data jsonLoads rest
         | some obj =>
           if obj.truthy then obj :: load_data jsonLoads rest
           else load_data jsonLoads rest) := rfl

lemma load_data_eq_filterMap (jsonLoads : String → Option JValue) (lines : List String) :
    load_data jsonLoads lines = lines.filterMap (loadLine jsonLoads) := by
  induction lines with
  | nil => rfl
  | cons line rest ih =>
    rw [load_data_cons, List.filterMap_cons]
    by_cases hb : (pyStrip line == "") = true
    · simp [loadLine, hb, ih]
    · cases hj : jsonLoads (pyStrip line) with
      | none => simp [loadLine, hb, hj, ih]
      | some v => cases ht : v.truthy <;> simp [loadLine, hb, hj, ht, ih]

lemma load_data_length (jsonLoads : String → Option JValue) (lines : List String) :
    (load_data jsonLoads lines).length = lines.countP (truthyValidLine jsonLoads) := by
  induction lines with
  | nil => rfl
  | cons line rest ih =>
    rw [load_data_cons, List.countP_cons]
    by_cases hb : (pyStrip line == "") = true
    · simp [truthyValidLine, hb, ih]
    · cases hj : jsonLoads (pyStrip line) with
      | none => simp [truthyValidLine, hb, hj, ih]
      | some v => cases ht : v.truthy <;> simp [truthyValidLine, hb, hj, ht, ih]

lemma load_data_truthy (jsonLoads : String → Option JValue) (lines : List String)
    (v : JValue) (hv : v ∈ load_data jsonLoads lines) : v.truthy = true := by
  induction lines with
  | nil => simp [load_data] at hv
  | cons line rest ih =>
    rw [load_data_cons] at hv
    by_cases hb : (pyStrip line == "") = true
    · rw [if_pos hb] at hv; exact ih hv
    · rw [if_neg hb] at hv
      cases hj : jsonLoads (pyStrip line) with
      | none => rw [hj] at hv; exact ih hv
      | some w =>
        rw [hj] at hv
        cases ht : w.truthy with
        | false => simp [ht] at hv; exact ih hv
        | true =>
          simp [ht] at hv
          rcases hv with rfl | hv'
          · exact ht
          · exact ih hv'

lemma load_data_filter_falsy (jsonLoads : String → Option JValue) (lines : List String) :
    load_data jsonLoads (lines.filter (fun l => !falsyParseLine jsonLoads l)) =
      load_data jsonLoads lines := by
  induction lines with
  | nil => rfl
  | cons line rest ih =>
    rw [List.filter_cons]
    by_cases hf : (!falsyParseLine jsonLoads line) = true
    · rw [if_pos hf, load_data_cons, load_data_cons]
      by_cases hb : (pyStrip line == "") = true
      · simp [hb, ih]
      · cases hj : jsonLoads (pyStrip line) with
        | none => simp [hb, hj, ih]
        | some v => cases ht : v.truthy <;> simp [hb, hj, ht, ih]
    · rw [if_neg hf]
      have hf' : falsyParseLine jsonLoads line = true := by
        cases hfl : falsyParseLine jsonLoads line
        · rw [hfl] at hf; simp at hf
        · rfl
      rw [load_data_cons]
      cases hj : jsonLoads (pyStrip line) with
      | none => simp [falsyParseLine, hj] at hf'
      | some v =>
        have ht : v.truthy = false := by simpa [falsyParseLine, hj] using hf'
        by_cases hb : (pyStrip line == "") = true
        · simp [hb, ih]
        · simp [hb, hj, ht, ih]

/-- C2 (counterexample): the claim "the number of loaded records equals the
number of syntactically valid non-blank lines" fails on the one-line file
`null`: the line is non-blank and is valid JSON (`json.loads` yields `None`),
but `load_data`'s `if obj:` check drops the falsy parse, so 0 records are
loaded while 1 line is syntactically valid and non-blank. -/
theorem C2_counterexample :
    ¬ ((load_data demoJsonLoads ["null"]).length =
        (["null"].countP (validNonBlankLine demoJsonLoads))) := by
  decide

/-- C2 (amended): for every input file, `load_data` excludes every line that
fails JSON parsing from the returned list (the result is exactly the per-line
`loadLine` contributions, which are `none` on parse failure), and the number of
loaded records equals the number of syntactically valid non-blank lines whose
parsed value is truthy; an empty file yields an empty list. -/
theorem C2_load_data_contract (jsonLoads : String → Option JValue) (lines : List String) :
    load_data jsonLoads lines = lines.filterMap (loadLine jsonLoads) ∧
    (load_data jsonLoads lines).length = lines.countP (truthyValidLine jsonLoads) ∧
    load_data jsonLoads ([] : List String) = [] :=
  ⟨load_data_eq_filterMap jsonLoads lines, load_data_length jsonLoads lines, rfl⟩

/-- C10: `load_data` excludes every line whose content is syntactically valid
JSON but parses to a falsy value, in addition to blank and unparseable lines:
every loaded record is truthy, and deleting the falsy-parsing lines from the
input does not change the result. -/
theorem C10_falsy_parses_excluded (jsonLoads : String → Option JValue) (lines : List String) :
    (∀ v ∈ load_data jsonLoads lines, v.truthy = true) ∧
    load_data jsonLoads (lines.filter (fun l => !falsyParseLine jsonLoads l)) =
      load_data jsonLoads lines :=
  ⟨fun v hv => load_data_truthy jsonLoads lines v hv,
   load_data_filter_falsy jsonLoads lines⟩

/-- C10 witness: on the concrete two-line file `\x7b"name": "Acme"\x7d` /
`null`, the theorem applies and certifies the loaded record is truthy. -/
theorem C10_falsy_parses_excluded_witness :
    (JValue.obj [("name", PyVal.str "Acme")]).truthy = true :=
  (C10_falsy_parses_excluded demoJsonLoads ["\x7b\"name\": \"Acme\"\x7d", "null"]).1
    (JValue.obj [("name", PyVal.str "Acme")]) (by decide)

/-- C1 (code evaluation): on the spec's two-record scenario batch, the dynamic
relationship writer raises `NameError` for `defaultdict` at line 99 and emits
no effect, instead of producing the claimed group; the grouping loop that line
99 precedes (lines 100-112), run on its own, would produce exactly the claimed
single group `BELONGS_TO` with the one row `from="Acme", to="Tech"`. -/
theorem C1_scenario_nameError_vs_grouping :
    create_relationships_dynamic (fun _ => true) "company" "industry"
        (demoEdges.map JValue.obj) "company_name" "industry_name" [] =
      ([], some (PyError.nameError "defaultdict")) ∧
    relGroupsOf "company_name" "industry_name" [] demoEdges [] =
      [(PyVal.str "BELONGS_TO",
        [[("from", PyVal.str "Acme"), ("to", PyVal.str "Tech")]])] :=
  ⟨rfl, by decide⟩

/-- C3: for every argument list, a non-empty `edges` makes
`create_relationships_dynamic` raise `NameError` (the unbound `defaultdict` at
line 99) before any grouping or store operation — its effect trace is empty —
while the empty-list call returns without error. -/
theorem C3_nameError_on_nonempty (runOk : Stmt → Bool) (startLabel endLabel : String)
    (edges : List JValue) (fromKey toKey : String) (attrKeys : List String) :
    (edges ≠ [] →
      create_relationships_dynamic runOk startLabel endLabel edges fromKey toKey attrKeys =
        ([], some (PyError.nameError "defaultdict"))) ∧
    create_relationships_dynamic runOk startLabel endLabel [] fromKey toKey attrKeys =
      ([], Option.none) := by
  refine ⟨fun h => ?_, rfl⟩
  simp [create_relationships_dynamic, List.isEmpty_iff, h]

/-- C3 witness: the theorem applied to a concrete singleton batch. -/
theorem C3_nameError_on_nonempty_witness :
    create_relationships_dynamic (fun _ => true) "company" "industry"
        [JValue.obj [("company_name", PyVal.str "Acme")]] "company_name" "industry_name" [] =
      ([], some (PyError.nameError "defaultdict")) :=
  (C3_nameError_on_nonempty (fun _ => true) "company" "industry"
      [JValue.obj [("company_name", PyVal.str "Acme")]] "company_name" "industry_name" []).1
    (by decide)

lemma itemsAll_map_obj (rows : List Record) : itemsAll (rows.map JValue.obj) = some rows := by
  induction rows with
  | nil => rfl
  | cons r rest ih => simp [itemsAll, ih]

lemma mem_clean_node (node : Record) (k : String) (v : PyVal) :
    (k, v) ∈ clean_node node ↔ (k, v) ∈ node ∧ v ≠ PyVal.none ∧ v ≠ PyVal.str "" := by
  simp [clean_node, List.mem_filter]

lemma create_nodes_batch_ok (runOk : Stmt → Bool) (label : String) (rows : List Record)
    (nameKey : String) (h : rows ≠ [])
    (hok : runOk (Stmt.unwindCreateNodes label (rows.map clean_node)) = true) :
    create_nodes_batch runOk label (rows.map JValue.obj) nameKey =
      ([Effect.run (Stmt.unwindCreateNodes label (rows.map clean_node)) true,
        Effect.print ("Created " ++ toString (rows.map clean_node).length ++
          " nodes of type '" ++ label ++ "'")], Option.none) := by
  have hne : (rows.map JValue.obj).isEmpty = false := by
    simp [List.isEmpty_iff, h]
  simp [create_nodes_batch, hne, itemsAll_map_obj, hok]

/-- C4: for a non-empty node batch, the single submitted statement carries the
cleaned batch — each record with its `None`-valued and `""`-valued keys
removed, with membership in the cleaned record characterized exactly, and with
falsy-but-valid values such as integer `0` preserved; all surviving keys travel
in the statement's row (which the store applies with `SET n = row`). -/
theorem C4_null_and_empty_stripped (runOk : Stmt → Bool) (label : String)
    (rows : List Record) (nameKey : String) (h : rows ≠ []) :
    ((create_nodes_batch runOk label (rows.map JValue.obj) nameKey).1.head? =
      some (Effect.run (Stmt.unwindCreateNodes label (rows.map clean_node))
        (runOk (Stmt.unwindCreateNodes label (rows.map clean_node))))) ∧
    (∀ node : Record, ∀ k : String, ∀ v : PyVal,
      (k, v) ∈ clean_node node ↔ (k, v) ∈ node ∧ v ≠ PyVal.none ∧ v ≠ PyVal.str "") ∧
    (∀ node : Record, ∀ k : String,
      (k, PyVal.int 0) ∈ node → (k, PyVal.int 0) ∈ clean_node node) := by
  refine ⟨?_, fun node k v => mem_clean_node node k v, fun node k hk => ?_⟩
  · have hne : (rows.map JValue.obj).isEmpty = false := by
      simp [List.isEmpty_iff, h]
    cases hok : runOk (Stmt.unwindCreateNodes label (rows.map clean_node)) with
    | true => simp [create_nodes_batch, hne, itemsAll_map_obj, hok]
    | false => simp [create_nodes_batch, hne, itemsAll_map_obj, hok]
  · exact (mem_clean_node node k (PyVal.int 0)).mpr ⟨hk, by decide, by decide⟩

/-- A node record exercising all the cleaning cases: a real name, a `None`
value, an empty string, and a falsy-but-valid integer `0`. -/
def demoNode : Record :=
  [("name", PyVal.str "Acme"), ("ceo", PyVal.none), ("site", PyVal.str ""),
   ("employees", PyVal.int 0)]

/-- C4 witness: the theorem applied to the concrete one-record batch
`demoNode`, whose head effect is the submission of the cleaned batch. -/
theorem C4_null_and_empty_stripped_witness :
    (create_nodes_batch (fun _ => true) "company" ([demoNode].map JValue.obj) "name").1.head? =
      some (Effect.run (Stmt.unwindCreateNodes "company" ([demoNode].map clean_node))
        ((fun _ => true) (Stmt.unwindCreateNodes "company" ([demoNode].map clean_node)))) :=
  (C4_null_and_empty_stripped (fun _ => true) "company" [demoNode] "name" (by decide)).1

lemma count_pair_map (label : String) (r : Record) (batch : List Record) :
    (batch.map (fun row => (label, row))).count (label, r) = batch.count r := by
  induction batch with
  | nil => rfl
  | cons b bs ih => simp [List.count_cons, ih]

/-- C7: node creation is not idempotent. For a non-empty batch that the store
accepts, the submitted statement is a plain CREATE (`unwindCreateNodes`, no
merge-by-key), and replaying the call's effect trace twice against the store's
node semantics adds two nodes per input record: the final node count rises by
`2 * rows.length`, and each cleaned record's multiplicity rises by twice its
multiplicity in the batch. -/
theorem C7_double_run_duplicates (runOk : Stmt → Bool) (label : String)
    (rows : List Record) (nameKey : String) (store : List (String × Record))
    (h : rows ≠ [])
    (hok : runOk (Stmt.unwindCreateNodes label (rows.map clean_node)) = true) :
    (applyEffects (applyEffects store
        (create_nodes_batch runOk label (rows.map JValue.obj) nameKey).1)
        (create_nodes_batch runOk label (rows.map JValue.obj) nameKey).1).length =
      store.length + 2 * rows.length ∧
    ∀ r : Record,
      (applyEffects (applyEffects store
          (create_nodes_batch runOk label (rows.map JValue.obj) nameKey).1)
          (create_nodes_batch runOk label (rows.map JValue.obj) nameKey).1).count (label, r) =
        store.count (label, r) + 2 * ((rows.map clean_node).count r) := by
  rw [create_nodes_batch_ok runOk label rows nameKey h hok]
  have e1 : ∀ s : List (String × Record),
      applyEffects s
        [Effect.run (Stmt.unwindCreateNodes label (rows.map clean_node)) true,
         Effect.print ("Created " ++ toString (rows.map clean_node).length ++
           " nodes of type '" ++ label ++ "'")] =
      s ++ (rows.map clean_node).map (fun row => (label, row)) := fun s => rfl
  rw [e1, e1]
  constructor
  · simp only [List.length_append, List.length_map]
    omega
  · intro r
    rw [List.count_append, List.count_append, count_pair_map]
    omega

/-- C7 witness: the theorem applied to the empty store and the concrete
one-record batch `demoNode` with an always-accepting store. -/
theorem C7_double_run_duplicates_witness :
    (applyEffects (applyEffects []
        (create_nodes_batch (fun _ => true) "company" ([demoNode].map JValue.obj) "name").1)
        (create_nodes_batch (fun _ => true) "company" ([demoNode].map JValue.obj) "name").1).length =
      ([] : List (String × Record)).length + 2 * [demoNode].length :=
  (C7_double_run_duplicates (fun _ => true) "company" [demoNode] "name" []
    (by decide) rfl).1

lemma runRelGroups_stmts (runOk : Stmt → Bool) (startLabel endLabel : String)
    (attrKeys : List String) (groups : List (PyVal × List Record)) :
    (runRelGroups runOk startLabel endLabel attrKeys groups).filterMap Effect.stmtOf =
      groups.map (groupStmt startLabel endLabel attrKeys) := by
  induction groups with
  | nil => rfl
  | cons g rest ih =>
    by_cases hg : runOk (groupStmt startLabel endLabel attrKeys g) = true
    · simp [runRelGroups, hg, Effect.stmtOf, List.filterMap_append, ih]
    · simp [runRelGroups, hg, Effect.stmtOf, List.filterMap_append, ih]

lemma runRelGroups_fail_logged (runOk : Stmt → Bool) (startLabel endLabel : String)
    (attrKeys : List String) (groups : List (PyVal × List Record))
    (g : PyVal × List Record) (hg : g ∈ groups)
    (hfail : runOk (groupStmt startLabel endLabel attrKeys g) = false) :
    Effect.print ("❌ Failed to create relationship " ++ g.1.toStr) ∈
      runRelGroups runOk startLabel endLabel attrKeys groups := by
  induction groups with
  | nil => simp at hg
  | cons g0 rest ih =>
    rcases List.mem_cons.mp hg with rfl | hg'
    · simp [runRelGroups, hfail]
    · simp only [runRelGroups]
      exact List.mem_append_right _ (ih hg')

/-- C5: in the per-group loop of the dynamic relationship writer (lines
114-138, downstream of the line-99 `NameError` settled by C3), group execution
is isolated: for every failure oracle and every sequence of groups, the
statements submitted to the store are exactly one per group, in group order —
so a failed group never prevents a later group's submission — and every failed
group gets its ❌ log line. The loop's return type carries no error: every
store exception is caught. -/
theorem C5_per_group_isolation (runOk : Stmt → Bool) (startLabel endLabel : String)
    (attrKeys : List String) (groups : List (PyVal × List Record)) :
    (runRelGroups runOk startLabel endLabel attrKeys groups).filterMap Effect.stmtOf =
      groups.map (groupStmt startLabel endLabel attrKeys) ∧
    ∀ g ∈ groups, runOk (groupStmt startLabel endLabel attrKeys g) = false →
      Effect.print ("❌ Failed to create relationship " ++ g.1.toStr) ∈
        runRelGroups runOk startLabel endLabel attrKeys groups :=
  ⟨runRelGroups_stmts runOk startLabel endLabel attrKeys groups,
   fun g hg hfail =>
     runRelGroups_fail_logged runOk startLabel endLabel attrKeys groups g hg hfail⟩

/-- A store oracle that rejects exactly the relationship statements of type
`"A"` (used to witness failure isolation). -/
def demoRunOk : Stmt → Bool
  | Stmt.unwindCreateRels _ _ "A" _ _ => false
  | _ => true

/-- C5 witness: with a two-group sequence whose first group's statement the
store rejects, the theorem yields both the one-statement-per-group trace and
the ❌ log line for the failed first group. -/
theorem C5_per_group_isolation_witness :
    (runRelGroups demoRunOk "company" "industry" []
        [(PyVal.str "A", []), (PyVal.str "B", [])]).filterMap Effect.stmtOf =
      [(PyVal.str "A", ([] : List Record)), (PyVal.str "B", [])].map
        (groupStmt "company" "industry" []) ∧
    Effect.print ("❌ Failed to create relationship " ++ (PyVal.str "A").toStr) ∈
      runRelGroups demoRunOk "company" "industry" []
        [(PyVal.str "A", []), (PyVal.str "B", [])] :=
  ⟨(C5_per_group_isolation demoRunOk "company" "industry" []
      [(PyVal.str "A", []), (PyVal.str "B", [])]).1,
   (C5_per_group_isolation demoRunOk "company" "industry" []
      [(PyVal.str "A", []), (PyVal.str "B", [])]).2
     (PyVal.str "A", []) (by decide) (by decide)⟩

/-- C6: for each label, the schema initializer first attempts the uniqueness
constraint (it is the head of the effect trace); when the constraint attempt
succeeds no index statement is attempted; when it raises, the fallback message
is logged and the plain index is attempted; when the index also raises, that
failure is logged too; and the three fixed labels are each processed whatever
fails (their constraint attempts all occur in `create_indexes_and_constraints`,
whose type carries no error since every exception is caught). -/
theorem C6_constraint_fallback_per_label (runOk : Stmt → Bool) (label : String) :
    (ensure_index_and_constraint runOk label).head? =
      some (Effect.run (Stmt.createConstraint label) (runOk (Stmt.createConstraint label))) ∧
    (runOk (Stmt.createConstraint label) = true →
      Effect.run (Stmt.createIndex label) (runOk (Stmt.createIndex label)) ∉
        ensure_index_and_constraint runOk label) ∧
    (runOk (Stmt.createConstraint label) = false →
      Effect.run (Stmt.createIndex label) (runOk (Stmt.createIndex label)) ∈
        ensure_index_and_constraint runOk label ∧
      Effect.print ("Constraint failed for " ++ label ++ ", falling back to index") ∈
        ensure_index_and_constraint runOk label) ∧
    (runOk (Stmt.createConstraint label) = false → runOk (Stmt.createIndex label) = false →
      Effect.print ("Index also failed for " ++ label) ∈
        ensure_index_and_constraint runOk label) ∧
    (Effect.run (Stmt.createConstraint "company") (runOk (Stmt.createConstraint "company")) ∈
        create_indexes_and_constraints runOk ∧
     Effect.run (Stmt.createConstraint "product") (runOk (Stmt.createConstraint "product")) ∈
        create_indexes_and_constraints runOk ∧
     Effect.run (Stmt.createConstraint "industry") (runOk (Stmt.createConstraint "industry")) ∈
        create_indexes_and_constraints runOk) := by
  refine ⟨?_, ?_, ?_, ?_, ?_, ?_, ?_⟩
  · by_cases hc : runOk (Stmt.createConstraint label) = true
    · simp [ensure_index_and_constraint, hc]
    · simp [ensure_index_and_constraint, hc]
  · intro hc
    by_cases hi : runOk (Stmt.createIndex label) = true
    · simp [ensure_index_and_constraint, hc, hi]
    · simp [ensure_index_and_constraint, hc, hi]
  · intro hc
    by_cases hi : runOk (Stmt.createIndex label) = true
    · constructor <;> simp [ensure_index_and_constraint, hc, hi]
    · constructor <;> simp [ensure_index_and_constraint, hc, hi]
  · intro hc hi
    simp [ensure_index_and_constraint, hc, hi]
  · by_cases hc : runOk (Stmt.createConstraint "company") = true
    · by_cases hi : runOk (Stmt.createIndex "company") = true <;>
        simp [create_indexes_and_constraints, ensure_index_and_constraint, hc, hi]
    · by_cases hi : runOk (Stmt.createIndex "company") = true <;>
        simp [create_indexes_and_constraints, ensure_index_and_constraint, hc, hi]
  · by_cases hc : runOk (Stmt.createConstraint "product") = true
    · by_cases hi : runOk (Stmt.createIndex "product") = true <;>
        simp [create_indexes_and_constraints, ensure_index_and_constraint, hc, hi]
    · by_cases hi : runOk (Stmt.createIndex "product") = true <;>
        simp [create_indexes_and_constraints, ensure_index_and_constraint, hc, hi]
  · by_cases hc : runOk (Stmt.createConstraint "industry") = true
    · by_cases hi : runOk (Stmt.createIndex "industry") = true <;>
        simp [create_indexes_and_constraints, ensure_index_and_constraint, hc, hi]
    · by_cases hi : runOk (Stmt.createIndex "industry") = true <;>
        simp [create_indexes_and_constraints, ensure_index_and_constraint, hc, hi]

/-- C6 witness: with a store that rejects everything, the "company" constraint
failure is logged and the fallback index is attempted anyway. -/
theorem C6_constraint_fallback_per_label_witness :
    Effect.run (Stmt.createIndex "company") ((fun _ => false) (Stmt.createIndex "company")) ∈
      ensure_index_and_constraint (fun _ => false) "company" ∧
    Effect.print ("Constraint failed for " ++ "company" ++ ", falling back to index") ∈
      ensure_index_and_constraint (fun _ => false) "company" :=
  (C6_constraint_fallback_per_label (fun _ => false) "company").2.2.1 rfl

/-- C9: calling either batch writer with an empty input list performs no store
operation, prints nothing, and returns without error (empty effect trace, no
exception), so replaying the trace leaves any store state unchanged. -/
theorem C9_empty_input_noop (runOk : Stmt → Bool)
    (label nameKey startLabel endLabel fromKey toKey : String) (attrKeys : List String) :
    create_nodes_batch runOk label [] nameKey = ([], Option.none) ∧
    create_relationships_dynamic runOk startLabel endLabel [] fromKey toKey attrKeys =
      ([], Option.none) ∧
    ∀ store : List (String × Record),
      applyEffects store (create_nodes_batch runOk label [] nameKey).1 = store :=
  ⟨rfl, rfl, fun _ => rfl⟩

lemma mem_seqE_fst (a b : List Effect × Option PyError) (e : Effect)
    (h : e ∈ (seqE a b).1) : e ∈ a.1 ∨ e ∈ b.1 := by
  cases ha : a.2 with
  | none => rw [seqE, ha] at h; exact List.mem_append.mp h
  | some err => rw [seqE, ha] at h; exact Or.inl h

lemma create_nodes_batch_phase (runOk : Stmt → Bool) (label : String)
    (nodes : List JValue) (nameKey : String) (e : Effect)
    (h : e ∈ (create_nodes_batch runOk label nodes nameKey).1) :
    e.isSchema = false ∧ e.isRelCreate = false := by
  by_cases hne : nodes.isEmpty = true
  · simp [create_nodes_batch, hne] at h
  · cases hit : itemsAll nodes with
    | none => simp [create_nodes_batch, hne, hit] at h
    | some rows =>
      by_cases hok : runOk (Stmt.unwindCreateNodes label (rows.map clean_node)) = true
      · simp [create_nodes_batch, hne, hit, hok] at h
        rcases h with rfl | rfl <;> simp [Effect.isSchema, Effect.isRelCreate]
      · simp [create_nodes_batch, hne, hit, hok] at h
        subst h; simp [Effect.isSchema, Effect.isRelCreate]

lemma create_graphnodes_phase (runOk : Stmt → Bool) (jsonLoads : String → Option JValue)
    (f : Files) (e : Effect) (h : e ∈ (create_graphnodes runOk jsonLoads f).1) :
    e.isSchema = false ∧ e.isRelCreate = false := by
  rcases mem_seqE_fst _ _ _ h with h1 | h2
  · exact create_nodes_batch_phase _ _ _ _ _ h1
  · rcases mem_seqE_fst _ _ _ h2 with h3 | h4
    · exact create_nodes_batch_phase _ _ _ _ _ h3
    · exact create_nodes_batch_phase _ _ _ _ _ h4

lemma ensure_phase (runOk : Stmt → Bool) (label : String) (e : Effect)
    (h : e ∈ ensure_index_and_constraint runOk label) :
    e.isNodeCreate = false ∧ e.isRelCreate = false := by
  by_cases hc : runOk (Stmt.createConstraint label) = true
  · simp [ensure_index_and_constraint, hc] at h
    rcases h with rfl | rfl <;> simp [Effect.isNodeCreate, Effect.isRelCreate]
  · by_cases hi : runOk (Stmt.createIndex label) = true
    · simp [ensure_index_and_constraint, hc, hi] at h
      rcases h with rfl | rfl | rfl | rfl <;> simp [Effect.isNodeCreate, Effect.isRelCreate]
    · simp [ensure_index_and_constraint, hc, hi] at h
      rcases h with rfl | rfl | rfl | rfl <;> simp [Effect.isNodeCreate, Effect.isRelCreate]

lemma create_indexes_phase (runOk : Stmt → Bool) (e : Effect)
    (h : e ∈ create_indexes_and_constraints runOk) :
    e.isNodeCreate = false ∧ e.isRelCreate = false := by
  rcases List.mem_cons.mp h with rfl | h'
  · simp [Effect.isNodeCreate, Effect.isRelCreate]
  · rcases List.mem_append.mp h' with h1 | h2
    · rcases List.mem_append.mp h1 with h3 | h4
      · exact ensure_phase _ _ _ h3
      · exact ensure_phase _ _ _ h4
    · exact ensure_phase _ _ _ h2

lemma create_relationships_dynamic_fst (runOk : Stmt → Bool) (startLabel endLabel : String)
    (edges : List JValue) (fromKey toKey : String) (attrKeys : List String) :
    (create_relationships_dynamic runOk startLabel endLabel edges fromKey toKey attrKeys).1 =
      [] := by
  by_cases h : edges.isEmpty = true <;> simp [create_relationships_dynamic, h]

lemma create_graphrels_phase (runOk : Stmt → Bool) (jsonLoads : String → Option JValue)
    (f : Files) (e : Effect) (h : e ∈ (create_graphrels runOk jsonLoads f).1) :
    e.isNodeCreate = false ∧ e.isSchema = false := by
  rcases mem_seqE_fst _ _ _ h with h1 | h2
  · simp at h1
    rcases h1 with rfl | rfl <;> simp [Effect.isNodeCreate, Effect.isSchema]
  · rcases mem_seqE_fst _ _ _ h2 with h3 | h4
    · rw [create_relationships_dynamic_fst] at h3; simp at h3
    · rcases mem_seqE_fst _ _ _ h4 with h5 | h6
      · rw [create_relationships_dynamic_fst] at h5; simp at h5
      · rcases mem_seqE_fst _ _ _ h6 with h7 | h8
        · rw [create_relationships_dynamic_fst] at h7; simp at h7
        · rw [create_relationships_dynamic_fst] at h8; simp at h8

/-- C8: the pipeline driver's effect trace decomposes as node-creation phase,
then schema phase, then relationship phase: no schema or relationship
statement occurs among the node-phase effects, no node or relationship
statement among the schema-phase effects, and no node or schema statement
among the relationship-phase effects; when the node phase raises no error, the
schema and relationship parts are exactly `create_indexes_and_constraints` and
`create_graphrels`. Hence schema initialization never precedes node creation
and relationship creation never precedes schema initialization. -/
theorem C8_pipeline_phase_order (runOk : Stmt → Bool) (jsonLoads : String → Option JValue)
    (f : Files) :
    ∃ l2 l3 : List Effect,
      (main_pipeline runOk jsonLoads f).1 =
        (create_graphnodes runOk jsonLoads f).1 ++ l2 ++ l3 ∧
      (∀ e ∈ (create_graphnodes runOk jsonLoads f).1,
        e.isSchema = false ∧ e.isRelCreate = false) ∧
      (∀ e ∈ l2, e.isNodeCreate = false ∧ e.isRelCreate = false) ∧
      (∀ e ∈ l3, e.isNodeCreate = false ∧ e.isSchema = false) ∧
      ((create_graphnodes runOk jsonLoads f).2 = Option.none →
        l2 = create_indexes_and_constraints runOk ∧
        l3 = (create_graphrels runOk jsonLoads f).1) := by
  cases hN : (create_graphnodes runOk jsonLoads f).2 with
  | some err =>
    refine ⟨[], [], ?_, ?_, ?_, ?_, ?_⟩
    · simp [main_pipeline, seqE, hN]
    · exact fun e he => create_graphnodes_phase runOk jsonLoads f e he
    · intro e he; simp at he
    · intro e he; simp at he
    · intro habs; simp at habs
  | none =>
    refine ⟨create_indexes_and_constraints runOk, (create_graphrels runOk jsonLoads f).1,
      ?_, ?_, ?_, ?_, ?_⟩
    · simp [main_pipeline, seqE, hN, List.append_assoc]
    · exact fun e he => create_graphnodes_phase runOk jsonLoads f e he
    · exact fun e he => create_indexes_phase runOk e he
    · exact fun e he => create_graphrels_phase runOk jsonLoads f e he
    · exact fun _ => ⟨rfl, rfl⟩

/-- C8 witness: the theorem applied at a concrete configuration (all store
statements accepted, a parser that parses nothing, empty data files). -/
theorem C8_pipeline_phase_order_witness :
    ∃ l2 l3 : List Effect,
      (main_pipeline (fun _ => true) (fun _ => Option.none)
          (Files.mk [] [] [] [] [] [] [])).1 =
        (create_graphnodes (fun _ => true) (fun _ => Option.none)
          (Files.mk [] [] [] [] [] [] [])).1 ++ l2 ++ l3 ∧
      (∀ e ∈ (create_graphnodes (fun _ => true) (fun _ => Option.none)
          (Files.mk [] [] [] [] [] [] [])).1,
        e.isSchema = false ∧ e.isRelCreate = false) ∧
      (∀ e ∈ l2, e.isNodeCreate = false ∧ e.isRelCreate = false) ∧
      (∀ e ∈ l3, e.isNodeCreate = false ∧ e.isSchema = false) ∧
      ((create_graphnodes (fun _ => true) (fun _ => Option.none)
          (Files.mk [] [] [] [] [] [] [])).2 = Option.none →
        l2 = create_indexes_and_constraints (fun _ => true) ∧
        l3 = (create_graphrels (fun _ => true) (fun _ => Option.none)
          (Files.mk [] [] [] [] [] [] [])).1) :=
  C8_pipeline_phase_order (fun _ => true) (fun _ => Option.none)
    (Files.mk [] [] [] [] [] [] [])

end BuildGraph
